import Mathlib

/-!
# Verification of the dash_forum web application (src/app.py)

Shallow embedding of the Flask forum application in `src/app.py`.
The relational stores (SQLAlchemy models `User`, `Topic`, `Reply`,
`Attachment`) become Lean structures held in lists inside a `DB` record;
each Flask request handler becomes a pure function from the database,
the session and the request parameters to a new database, a new session,
the flash messages it emits and the page it returns.

Werkzeug's salted password hashing is modelled as an injective encoding
of the password: `check_password_hash (generate_password_hash p) q`
holds exactly when `p = q`, which is the contract the handlers rely on.
-/

namespace DashForum

/-- Model of `werkzeug.security.generate_password_hash`: an injective
encoding of the password (the salt is irrelevant to the handlers). -/
def generate_password_hash (password : String) : String :=
  "pbkdf2:" ++ password

/-- Model of `werkzeug.security.check_password_hash`: succeeds exactly
when the hash is the encoding of the candidate password. -/
def check_password_hash (hash password : String) : Bool :=
  hash == "pbkdf2:" ++ password

/-- `ALLOWED_EXTENSIONS` from app.py. -/
def ALLOWED_EXTENSIONS : List String :=
  ["txt", "pdf", "png", "jpg", "jpeg", "gif", "zip", "doc", "docx"]

/-- `allowed_file(filename)` from app.py: the name contains a dot and the
part after the last dot, lowercased, is an allowed extension. -/
def allowed_file (filename : String) : Bool :=
  filename.contains '.' &&
    ALLOWED_EXTENSIONS.contains ((filename.splitOn ".").getLastD "").toLower

/-- SQLAlchemy model `User` (app.py lines 28-43).  `created_at` is a
logical timestamp. -/
structure User where
  id : Nat
  username : String
  email : String
  password_hash : String
  created_at : Nat
  is_admin : Bool
  is_active : Bool
deriving DecidableEq, Repr

/-- SQLAlchemy model `Topic` (app.py lines 45-62). -/
structure Topic where
  id : Nat
  title : String
  content : String
  created_at : Nat
  user_id : Nat
  views : Nat
  is_deleted : Bool
deriving DecidableEq, Repr

/-- SQLAlchemy model `Reply` (app.py lines 64-70). -/
structure Reply where
  id : Nat
  content : String
  created_at : Nat
  user_id : Nat
  topic_id : Nat
deriving DecidableEq, Repr

/-- SQLAlchemy model `Attachment` (app.py lines 72-79).  `topic_id` and
`reply_id` are nullable foreign keys. -/
structure Attachment where
  id : Nat
  filename : String
  original_filename : String
  uploaded_at : Nat
  topic_id : Option Nat
  reply_id : Option Nat
  user_id : Nat
deriving DecidableEq, Repr

/-- The relational database: one table per model. -/
structure DB where
  users : List User
  topics : List Topic
  replies : List Reply
  attachments : List Attachment
deriving DecidableEq, Repr

/-- The page a handler answers with: a redirect to a named route or a
rendered template, or the 404 produced by `get_or_404`. -/
inductive Page where
  | redirectLogin
  | redirectIndex
  | redirectTopics
  | redirectTopic (topic_id : Nat)
  | redirectAdminUsers
  | render (template : String)
  | notFound
deriving DecidableEq, Repr

/-- Result of one request: the database after the transaction, the
session after the request, the flash messages emitted (in order), and
the page answered. -/
structure HResult where
  db : DB
  session : Option Nat
  flashes : List String
  page : Page
deriving DecidableEq, Repr

/-- `User.query.get(uid)` / `get_or_404`: primary-key lookup. -/
def getUser (db : DB) (uid : Nat) : Option User :=
  db.users.find? (fun u => u.id == uid)

/-- `Topic.query.get(tid)` / `get_or_404`: primary-key lookup. -/
def getTopic (db : DB) (tid : Nat) : Option Topic :=
  db.topics.find? (fun t => t.id == tid)

/-- Flask-login's `current_user`: the user loaded from the session id by
`load_user`, or none (anonymous) when there is no session or the id does
not resolve. -/
def currentUser (db : DB) (session : Option Nat) : Option User :=
  session.bind (fun uid => getUser db uid)

/-- `is_admin()` from app.py: the current user is authenticated and has
the admin flag. -/
def isAdminSession (db : DB) (session : Option Nat) : Bool :=
  match currentUser db session with
  | some u => u.is_admin
  | none => false

/-- Flask-login's `login_message`, flashed by `@login_required` when an
anonymous request hits a protected route. -/
def loginRequiredMessage : String :=
  "Пожалуйста, войдите для доступа к этой странице."

/-- Commit of `user.is_active = b` on the row with id `uid`. -/
def setUserActive (db : DB) (uid : Nat) (b : Bool) : DB :=
  { db with users :=
      db.users.map (fun u => if u.id == uid then { u with is_active := b } else u) }

/-- Commit of `topic.is_deleted = b` on the row with id `tid`. -/
def setTopicDeleted (db : DB) (tid : Nat) (b : Bool) : DB :=
  { db with topics :=
      db.topics.map (fun t => if t.id == tid then { t with is_deleted := b } else t) }

/-- Commit of `topic.views = topic.views + 1` on the row with id `tid`. -/
def incTopicViews (db : DB) (tid : Nat) : DB :=
  { db with topics :=
      db.topics.map (fun t => if t.id == tid then { t with views := t.views + 1 } else t) }

/-- Autoincrement primary key for a new `User` row. -/
def nextUserId (db : DB) : Nat :=
  (db.users.map (fun u => u.id)).foldr max 0 + 1

/-- Autoincrement primary key for a new `Topic` row. -/
def nextTopicId (db : DB) : Nat :=
  (db.topics.map (fun t => t.id)).foldr max 0 + 1

/-- Autoincrement primary key for a new `Attachment` row. -/
def nextAttachmentId (db : DB) : Nat :=
  (db.attachments.map (fun a => a.id)).foldr max 0 + 1

/-- Autoincrement primary key for a new `Reply` row. -/
def nextReplyId (db : DB) : Nat :=
  (db.replies.map (fun r => r.id)).foldr max 0 + 1

/-- Model of `werkzeug.utils.secure_filename`.  Its sanitization is out
of scope for every claim, so the name passes through. -/
def secure_filename (s : String) : String := s

/-- The processing of one uploaded file inside `new_topic` / `reply`:
timestamp-prefixed unique name, save, and an `Attachment` row tied to
either a topic or a reply. -/
def saveAttachment (db : DB) (uid : Nat) (topicRef replyRef : Option Nat)
    (now : Nat) (f : String) : DB :=
  let filename := secure_filename f
  let unique_filename := toString now ++ "_" ++ filename
  { db with attachments := db.attachments ++
      [⟨nextAttachmentId db, unique_filename, filename, now, topicRef, replyRef, uid⟩] }

/-- GET `/forum` (route `topics`, app.py lines 103-113): the result set of
`Topic.query.filter_by(is_deleted=False).join(User).filter(User.is_active
== True).order_by(Topic.created_at.desc())`, before pagination.  The join
is an inner join on `Topic.user_id == User.id`. -/
def topicsListing (db : DB) : List Topic :=
  ((db.topics.filter (fun t => t.is_deleted == false)).filter
      (fun t => db.users.any (fun u => u.id == t.user_id && u.is_active))).mergeSort
    (fun a b => decide (b.created_at ≤ a.created_at))

/-- `paginate(page=page, per_page=per_page, error_out=False).items`:
the slice of the result set shown on one page. -/
def paginateItems (l : List Topic) (page per_page : Nat) : List Topic :=
  (l.drop ((page - 1) * per_page)).take per_page

/-- The items rendered by GET `/forum` for a page (`per_page = 20`). -/
def topicsPageItems (db : DB) (page : Nat) : List Topic :=
  paginateItems (topicsListing db) page 20

/-- Modelled from the spec: the handler for GET `/topic/{id}` (route
function `topic`) is missing from src/app.py — only its callers appear
there (`url_for('topic', topic_id=...)` in `new_topic` and `reply`).
Spec §4.3: "Viewing a single topic by id does *not* check is_deleted …
it always increments the view counter and renders"; spec §7: missing
entities fail with a not-found condition. -/
def topic_view (db : DB) (session : Option Nat) (topic_id : Nat) : HResult :=
  match getTopic db topic_id with
  | none => ⟨db, session, [], .notFound⟩
  | some t => ⟨incTopicViews db t.id, session, [], .render "topic.html"⟩

/-- POST `/new_topic` (route `new_topic`, app.py lines 115-150).
`files` is the list of uploaded file names. -/
def new_topic (db : DB) (session : Option Nat) (title content : String)
    (files : List String) (now : Nat) : HResult :=
  match currentUser db session with
  | none => ⟨db, session, [loginRequiredMessage], .redirectLogin⟩
  | some cu =>
    if title ≠ "" ∧ content ≠ "" then
      let tid := nextTopicId db
      let t : Topic := ⟨tid, title, content, now, cu.id, 0, false⟩
      let db1 := { db with topics := db.topics ++ [t] }
      let db2 := (files.filter (fun f => f ≠ "" && allowed_file f)).foldl
        (fun d f => saveAttachment d cu.id (some tid) none now f) db1
      ⟨db2, session, ["Тема успешно создана!"], .redirectTopic tid⟩
    else
      ⟨db, session, ["Заполните все поля"], .render "new_topic.html"⟩

/-- POST `/profile/delete` (route `delete_own_account`, app.py lines
152-169). -/
def delete_own_account (db : DB) (session : Option Nat) (password : String) : HResult :=
  match currentUser db session with
  | none => ⟨db, session, [loginRequiredMessage], .redirectLogin⟩
  | some cu =>
    if check_password_hash cu.password_hash password then
      ⟨setUserActive db cu.id false, none,
        ["Ваш аккаунт успешно удален"], .redirectIndex⟩
    else
      ⟨db, session, ["Неверный пароль"], .render "delete_account.html"⟩

/-- POST `/admin/delete_user/{user_id}` (route `admin_delete_user`,
app.py lines 171-189). -/
def admin_delete_user (db : DB) (session : Option Nat) (user_id : Nat) : HResult :=
  match currentUser db session with
  | none => ⟨db, session, [loginRequiredMessage], .redirectLogin⟩
  | some cu =>
    if ¬ cu.is_admin then
      ⟨db, session, ["Недостаточно прав"], .redirectIndex⟩
    else
      match getUser db user_id with
      | none => ⟨db, session, [], .notFound⟩
      | some u =>
        if u.id == cu.id then
          ⟨db, session, ["Нельзя удалить свой собственный аккаунт"], .redirectAdminUsers⟩
        else if u.is_admin then
          ⟨db, session, ["Нельзя удалить другого администратора"], .redirectAdminUsers⟩
        else
          ⟨setUserActive db u.id false, session,
            ["Аккаунт пользователя " ++ u.username ++ " удален"], .redirectAdminUsers⟩

/-- POST `/admin/restore_user/{user_id}` (route `admin_restore_user`,
app.py lines 191-203). -/
def admin_restore_user (db : DB) (session : Option Nat) (user_id : Nat) : HResult :=
  match currentUser db session with
  | none => ⟨db, session, [loginRequiredMessage], .redirectLogin⟩
  | some cu =>
    if ¬ cu.is_admin then
      ⟨db, session, ["Недостаточно прав"], .redirectIndex⟩
    else
      match getUser db user_id with
      | none => ⟨db, session, [], .notFound⟩
      | some u =>
        ⟨setUserActive db u.id true, session,
          ["Аккаунт пользователя " ++ u.username ++ " восстановлен"], .redirectAdminUsers⟩

/-- GET `/admin/users` (route `admin_users`, app.py lines 205-213). -/
def admin_users (db : DB) (session : Option Nat) : HResult :=
  match currentUser db session with
  | none => ⟨db, session, [loginRequiredMessage], .redirectLogin⟩
  | some cu =>
    if ¬ cu.is_admin then
      ⟨db, session, ["Недостаточно прав"], .redirectIndex⟩
    else
      ⟨db, session, [], .render "admin_users.html"⟩

/-- POST `/reply/{topic_id}` (route `reply`, app.py lines 215-248). -/
def reply (db : DB) (session : Option Nat) (topic_id : Nat) (content : String)
    (files : List String) (now : Nat) : HResult :=
  match currentUser db session with
  | none => ⟨db, session, [loginRequiredMessage], .redirectLogin⟩
  | some cu =>
    match getTopic db topic_id with
    | none => ⟨db, session, [], .notFound⟩
    | some _ =>
      if content ≠ "" then
        let rid := nextReplyId db
        let r : Reply := ⟨rid, content, now, cu.id, topic_id⟩
        let db1 := { db with replies := db.replies ++ [r] }
        let db2 := (files.filter (fun f => f ≠ "" && allowed_file f)).foldl
          (fun d f => saveAttachment d cu.id none (some rid) now f) db1
        ⟨db2, session, ["Ответ добавлен!"], .redirectTopic topic_id⟩
      else
        ⟨db, session, ["Сообщение не может быть пустым"], .redirectTopic topic_id⟩

/-- POST `/login` (route `login`, app.py lines 251-271).  `login_user`
(flask-login) establishes the session only for an active user. -/
def login (db : DB) (session : Option Nat) (username password : String) : HResult :=
  match currentUser db session with
  | some _ => ⟨db, session, [], .redirectIndex⟩
  | none =>
    match db.users.find? (fun u => u.username == username) with
    | some u =>
      if check_password_hash u.password_hash password then
        ⟨db, if u.is_active then some u.id else session,
          ["Вы успешно вошли в систему!"], .redirectIndex⟩
      else
        ⟨db, session, ["Неверное имя пользователя или пароль"], .render "login.html"⟩
    | none =>
      ⟨db, session, ["Неверное имя пользователя или пароль"], .render "login.html"⟩

/-- The error list collected by POST `/register` (app.py lines 284-299),
in program order. -/
def registerErrors (db : DB) (username email password confirm_password : String) :
    List String :=
  (if username = "" ∨ email = "" ∨ password = ""
    then ["Все поля обязательны для заполнения"] else []) ++
  (if password ≠ confirm_password then ["Пароли не совпадают"] else []) ++
  (if password.length < 6
    then ["Пароль должен содержать не менее 6 символов"] else []) ++
  (if (db.users.find? (fun u => u.username == username)).isSome
    then ["Имя пользователя уже занято"] else []) ++
  (if (db.users.find? (fun u => u.email == email)).isSome
    then ["Email уже зарегистрирован"] else [])

/-- POST `/register` (route `register`, app.py lines 273-314). -/
def register (db : DB) (session : Option Nat)
    (username email password confirm_password : String) (now : Nat) : HResult :=
  match currentUser db session with
  | some _ => ⟨db, session, [], .redirectIndex⟩
  | none =>
    let errors := registerErrors db username email password confirm_password
    if errors = [] then
      let u : User := ⟨nextUserId db, username, email,
        generate_password_hash password, now, false, true⟩
      ⟨{ db with users := db.users ++ [u] }, none,
        ["Регистрация прошла успешно! Теперь вы можете войти."], .redirectLogin⟩
    else
      ⟨db, session, errors, .render "register.html"⟩

/-- GET `/logout` (route `logout`, app.py lines 316-321). -/
def logout (db : DB) (session : Option Nat) : HResult :=
  match currentUser db session with
  | none => ⟨db, session, [loginRequiredMessage], .redirectLogin⟩
  | some _ => ⟨db, none, ["Вы вышли из системы"], .redirectIndex⟩

/-- POST `/admin/delete_topic/{topic_id}` (route `admin_delete_topic`,
app.py lines 327-339). -/
def admin_delete_topic (db : DB) (session : Option Nat) (topic_id : Nat) : HResult :=
  match currentUser db session with
  | none => ⟨db, session, [loginRequiredMessage], .redirectLogin⟩
  | some cu =>
    if ¬ cu.is_admin then
      ⟨db, session, ["Недостаточно прав для выполнения этой операции"], .redirectIndex⟩
    else
      match getTopic db topic_id with
      | none => ⟨db, session, [], .notFound⟩
      | some _ =>
        ⟨setTopicDeleted db topic_id true, session,
          ["Тема успешно удалена"], .redirectTopics⟩

/-- POST `/admin/restore_topic/{topic_id}` (route `admin_restore_topic`,
app.py lines 341-353). -/
def admin_restore_topic (db : DB) (session : Option Nat) (topic_id : Nat) : HResult :=
  match currentUser db session with
  | none => ⟨db, session, [loginRequiredMessage], .redirectLogin⟩
  | some cu =>
    if ¬ cu.is_admin then
      ⟨db, session, ["Недостаточно прав для выполнения этой операции"], .redirectIndex⟩
    else
      match getTopic db topic_id with
      | none => ⟨db, session, [], .notFound⟩
      | some _ =>
        ⟨setTopicDeleted db topic_id false, session,
          ["Тема восстановлена"], .redirectTopics⟩

/-- GET `/admin/topics` (route `admin_topics`, app.py lines 355-363). -/
def admin_topics (db : DB) (session : Option Nat) : HResult :=
  match currentUser db session with
  | none => ⟨db, session, [loginRequiredMessage], .redirectLogin⟩
  | some cu =>
    if ¬ cu.is_admin then
      ⟨db, session, ["Недостаточно прав для доступа к этой странице"], .redirectIndex⟩
    else
      ⟨db, session, [], .render "admin_topics.html"⟩

/-! ## Helper lemmas -/

/-- `find?` commutes with `map` when the predicate factors through the map. -/
theorem find?_map_comm {α β : Type} (f : α → β) (p : β → Bool) (q : α → Bool)
    (h : ∀ a, p (f a) = q a) (l : List α) :
    (l.map f).find? p = (l.find? q).map f := by
  induction l with
  | nil => rfl
  | cons a l ih =>
    simp only [List.map_cons, List.find?_cons, h]
    cases hq : q a <;> simp [ih]

/-- Membership in a conditional singleton. -/
theorem mem_ite_singleton {α : Type} {c : Prop} [Decidable c] {a b : α} :
    (a ∈ (if c then [b] else [])) ↔ c ∧ a = b := by
  by_cases h : c <;> simp [h]

/-- Characterization of membership in the `/forum` query result set. -/
theorem mem_topicsListing (db : DB) (t : Topic) :
    t ∈ topicsListing db ↔
      t ∈ db.topics ∧ t.is_deleted = false ∧
        ∃ u ∈ db.users, u.id = t.user_id ∧ u.is_active = true := by
  unfold topicsListing
  rw [List.mem_mergeSort, List.mem_filter, List.mem_filter]
  simp only [List.any_eq_true, Bool.and_eq_true, beq_iff_eq, and_assoc]

/-- A topic-table update that preserves ids commutes with primary-key lookup. -/
theorem getTopic_map (db : DB) (f : Topic → Topic) (hf : ∀ x, (f x).id = x.id)
    (tid : Nat) :
    getTopic { db with topics := db.topics.map f } tid = (getTopic db tid).map f := by
  unfold getTopic
  exact find?_map_comm f _ _ (fun a => by rw [hf]) db.topics

/-- A user-table update that preserves ids commutes with primary-key lookup. -/
theorem getUser_map (db : DB) (f : User → User) (hf : ∀ x, (f x).id = x.id)
    (uid : Nat) :
    getUser { db with users := db.users.map f } uid = (getUser db uid).map f := by
  unfold getUser
  exact find?_map_comm f _ _ (fun a => by rw [hf]) db.users

/-! ## Claim theorems -/

/-- C2: For every database state, the `/forum` topic listing (the result set
of the `topics` route's query; pagination only windows it 20 items at a
time) contains exactly the topics with `is_deleted = false` whose owning
user has `is_active = true`; every topic with `is_deleted = true` and
every topic owned by an inactive user is excluded. -/
theorem C2_forum_listing_exact (db : DB) (t : Topic) :
    t ∈ topicsListing db ↔
      t ∈ db.topics ∧ t.is_deleted = false ∧
        ∃ u ∈ db.users, u.id = t.user_id ∧ u.is_active = true :=
  mem_topicsListing db t

/-- C5: A login attempt with an existing username but a wrong password and
a login attempt with a nonexistent username produce the identical generic
invalid-credentials response: same flash message, same rendered page, no
session established and no database change, so the response does not
reveal whether the username exists. -/
theorem C5_login_generic_failure (db : DB) (u : User) (un1 p1 un2 p2 : String)
    (h1 : db.users.find? (fun v => v.username == un1) = some u)
    (h2 : check_password_hash u.password_hash p1 = false)
    (h3 : db.users.find? (fun v => v.username == un2) = none) :
    login db none un1 p1 =
      ⟨db, none, ["Неверное имя пользователя или пароль"], .render "login.html"⟩ ∧
    login db none un2 p2 =
      ⟨db, none, ["Неверное имя пользователя или пароль"], .render "login.html"⟩ ∧
    login db none un1 p1 = login db none un2 p2 := by
  have e1 : login db none un1 p1 =
      ⟨db, none, ["Неверное имя пользователя или пароль"], .render "login.html"⟩ := by
    unfold login currentUser
    simp [h1, h2]
  have e2 : login db none un2 p2 =
      ⟨db, none, ["Неверное имя пользователя или пароль"], .render "login.html"⟩ := by
    unfold login currentUser
    simp [h3]
  exact ⟨e1, e2, e1.trans e2.symm⟩

/-- C5 witness: concrete two-user-free database, wrong password for an
existing user versus a nonexistent username. -/
theorem C5_login_generic_failure_witness :
    login ⟨[⟨1, "alice", "a@x.com", "pbkdf2:secret1", 0, false, true⟩], [], [], []⟩
        none "alice" "wrong" =
      ⟨⟨[⟨1, "alice", "a@x.com", "pbkdf2:secret1", 0, false, true⟩], [], [], []⟩,
        none, ["Неверное имя пользователя или пароль"], .render "login.html"⟩ ∧
    login ⟨[⟨1, "alice", "a@x.com", "pbkdf2:secret1", 0, false, true⟩], [], [], []⟩
        none "ghost" "wrong" =
      ⟨⟨[⟨1, "alice", "a@x.com", "pbkdf2:secret1", 0, false, true⟩], [], [], []⟩,
        none, ["Неверное имя пользователя или пароль"], .render "login.html"⟩ ∧
    login ⟨[⟨1, "alice", "a@x.com", "pbkdf2:secret1", 0, false, true⟩], [], [], []⟩
        none "alice" "wrong" =
      login ⟨[⟨1, "alice", "a@x.com", "pbkdf2:secret1", 0, false, true⟩], [], [], []⟩
        none "ghost" "wrong" :=
  C5_login_generic_failure _ ⟨1, "alice", "a@x.com", "pbkdf2:secret1", 0, false, true⟩
    "alice" "wrong" "ghost" "wrong" (by decide) (by decide) (by decide)

/-- C6: Creating a topic without an authenticated session redirects to the
login page; no Topic row and no Attachment row is created — the whole
database is unchanged. -/
theorem C6_new_topic_unauthenticated (db : DB) (session : Option Nat)
    (title content : String) (files : List String) (now : Nat)
    (hs : currentUser db session = none) :
    new_topic db session title content files now =
      ⟨db, session, [loginRequiredMessage], .redirectLogin⟩ := by
  unfold new_topic
  rw [hs]

/-- C6 witness: anonymous request on a nonempty database. -/
theorem C6_new_topic_unauthenticated_witness :
    new_topic ⟨[⟨1, "alice", "a@x.com", "pbkdf2:secret1", 0, false, true⟩], [], [], []⟩
        none "title" "content" ["a.txt"] 7 =
      ⟨⟨[⟨1, "alice", "a@x.com", "pbkdf2:secret1", 0, false, true⟩], [], [], []⟩,
        none, [loginRequiredMessage], .redirectLogin⟩ :=
  C6_new_topic_unauthenticated _ none "title" "content" ["a.txt"] 7 rfl

/-- C9: For an authenticated non-admin user, every admin route
(delete_user, restore_user, delete_topic, restore_topic, and both admin
listings) answers with a redirect to the index plus an error flash, and
the entire store state (database and session) is unchanged. -/
theorem C9_non_admin_admin_routes_unchanged (db : DB) (session : Option Nat)
    (cu : User) (uid tid : Nat)
    (hcu : currentUser db session = some cu) (hadmin : cu.is_admin = false) :
    admin_delete_user db session uid =
      ⟨db, session, ["Недостаточно прав"], .redirectIndex⟩ ∧
    admin_restore_user db session uid =
      ⟨db, session, ["Недостаточно прав"], .redirectIndex⟩ ∧
    admin_users db session =
      ⟨db, session, ["Недостаточно прав"], .redirectIndex⟩ ∧
    admin_delete_topic db session tid =
      ⟨db, session, ["Недостаточно прав для выполнения этой операции"], .redirectIndex⟩ ∧
    admin_restore_topic db session tid =
      ⟨db, session, ["Недостаточно прав для выполнения этой операции"], .redirectIndex⟩ ∧
    admin_topics db session =
      ⟨db, session, ["Недостаточно прав для доступа к этой странице"], .redirectIndex⟩ := by
  unfold admin_delete_user admin_restore_user admin_users admin_delete_topic
    admin_restore_topic admin_topics
  simp [hcu, hadmin]

/-- C9 witness: a logged-in regular user hitting every admin route. -/
theorem C9_non_admin_admin_routes_unchanged_witness :
    admin_delete_user ⟨[⟨2, "bob", "b@x.com", "pbkdf2:s", 0, false, true⟩], [], [], []⟩
        (some 2) 1 =
      ⟨⟨[⟨2, "bob", "b@x.com", "pbkdf2:s", 0, false, true⟩], [], [], []⟩,
        some 2, ["Недостаточно прав"], .redirectIndex⟩ ∧
    admin_restore_user ⟨[⟨2, "bob", "b@x.com", "pbkdf2:s", 0, false, true⟩], [], [], []⟩
        (some 2) 1 =
      ⟨⟨[⟨2, "bob", "b@x.com", "pbkdf2:s", 0, false, true⟩], [], [], []⟩,
        some 2, ["Недостаточно прав"], .redirectIndex⟩ ∧
    admin_users ⟨[⟨2, "bob", "b@x.com", "pbkdf2:s", 0, false, true⟩], [], [], []⟩
        (some 2) =
      ⟨⟨[⟨2, "bob", "b@x.com", "pbkdf2:s", 0, false, true⟩], [], [], []⟩,
        some 2, ["Недостаточно прав"], .redirectIndex⟩ ∧
    admin_delete_topic ⟨[⟨2, "bob", "b@x.com", "pbkdf2:s", 0, false, true⟩], [], [], []⟩
        (some 2) 1 =
      ⟨⟨[⟨2, "bob", "b@x.com", "pbkdf2:s", 0, false, true⟩], [], [], []⟩,
        some 2, ["Недостаточно прав для выполнения этой операции"], .redirectIndex⟩ ∧
    admin_restore_topic ⟨[⟨2, "bob", "b@x.com", "pbkdf2:s", 0, false, true⟩], [], [], []⟩
        (some 2) 1 =
      ⟨⟨[⟨2, "bob", "b@x.com", "pbkdf2:s", 0, false, true⟩], [], [], []⟩,
        some 2, ["Недостаточно прав для выполнения этой операции"], .redirectIndex⟩ ∧
    admin_topics ⟨[⟨2, "bob", "b@x.com", "pbkdf2:s", 0, false, true⟩], [], [], []⟩
        (some 2) =
      ⟨⟨[⟨2, "bob", "b@x.com", "pbkdf2:s", 0, false, true⟩], [], [], []⟩,
        some 2, ["Недостаточно прав для доступа к этой странице"], .redirectIndex⟩ :=
  C9_non_admin_admin_routes_unchanged _ (some 2)
    ⟨2, "bob", "b@x.com", "pbkdf2:s", 0, false, true⟩ 1 1 (by decide) rfl

/-- C1: A view request for an existing topic always increments that
topic's view counter by exactly 1 and renders the topic — there is no
`is_deleted` check, so this holds for deleted and undeleted topics alike
(`t.is_deleted` is unconstrained below).  Every other topic row and the
user table are untouched. -/
theorem C1_topic_view_increments_once (db : DB) (session : Option Nat) (t : Topic)
    (ht : getTopic db t.id = some t) :
    (topic_view db session t.id).page = .render "topic.html" ∧
    getTopic (topic_view db session t.id).db t.id =
      some { t with views := t.views + 1 } ∧
    (∀ x ∈ db.topics, x.id ≠ t.id → x ∈ (topic_view db session t.id).db.topics) ∧
    (topic_view db session t.id).db.users = db.users := by
  unfold topic_view
  rw [ht]
  refine ⟨rfl, ?_, ?_, rfl⟩
  · show getTopic (incTopicViews db t.id) t.id = some { t with views := t.views + 1 }
    unfold incTopicViews
    rw [getTopic_map db _ (fun x => by split <;> rfl) t.id, ht]
    simp
  · intro x hx hne
    show x ∈ (incTopicViews db t.id).topics
    unfold incTopicViews
    have hx' : (if x.id == t.id then { x with views := x.views + 1 } else x) = x := by
      simp [hne]
    exact hx' ▸ List.mem_map_of_mem _ hx

/-- C1 witness: viewing a soft-deleted topic still bumps its counter. -/
theorem C1_topic_view_increments_once_witness :
    (topic_view ⟨[], [⟨5, "t", "c", 0, 1, 3, true⟩], [], []⟩ none 5).page =
      .render "topic.html" ∧
    getTopic (topic_view ⟨[], [⟨5, "t", "c", 0, 1, 3, true⟩], [], []⟩ none 5).db 5 =
      some ⟨5, "t", "c", 0, 1, 4, true⟩ ∧
    (∀ x ∈ ([⟨5, "t", "c", 0, 1, 3, true⟩] : List Topic), x.id ≠ 5 →
      x ∈ (topic_view ⟨[], [⟨5, "t", "c", 0, 1, 3, true⟩], [], []⟩ none 5).db.topics) ∧
    (topic_view ⟨[], [⟨5, "t", "c", 0, 1, 3, true⟩], [], []⟩ none 5).db.users =
      ([] : List User) :=
  C1_topic_view_increments_once ⟨[], [⟨5, "t", "c", 0, 1, 3, true⟩], [], []⟩ none
    ⟨5, "t", "c", 0, 1, 3, true⟩ (by decide)

/-- C10: POST `/profile/delete` deactivates the logged-in user and clears
the session only when the submitted password matches the stored hash;
with a non-matching password it flashes an error and leaves the user
active, the session intact and the whole database unchanged. -/
theorem C10_delete_own_account_password_gate (db : DB) (session : Option Nat)
    (cu : User) (pw : String) (hcu : currentUser db session = some cu) :
    (check_password_hash cu.password_hash pw = true →
      (delete_own_account db session pw).session = none ∧
      (delete_own_account db session pw).flashes = ["Ваш аккаунт успешно удален"] ∧
      (delete_own_account db session pw).page = .redirectIndex ∧
      getUser (delete_own_account db session pw).db cu.id =
        some { cu with is_active := false } ∧
      (∀ v ∈ db.users, v.id ≠ cu.id → v ∈ (delete_own_account db session pw).db.users) ∧
      (delete_own_account db session pw).db.topics = db.topics) ∧
    (check_password_hash cu.password_hash pw = false →
      delete_own_account db session pw =
        ⟨db, session, ["Неверный пароль"], .render "delete_account.html"⟩) := by
  cases session with
  | none => simp [currentUser] at hcu
  | some uid =>
    have hget : getUser db uid = some cu := by simpa [currentUser] using hcu
    have hid : cu.id = uid := by simpa using List.find?_some hget
    subst hid
    constructor
    · intro hok
      unfold delete_own_account
      rw [hcu]
      dsimp only
      rw [if_pos hok]
      refine ⟨rfl, rfl, rfl, ?_, ?_, rfl⟩
      · show getUser (setUserActive db cu.id false) cu.id =
          some { cu with is_active := false }
        unfold setUserActive
        rw [getUser_map db _ (fun x => by split <;> rfl) cu.id, hget]
        simp
      · intro v hv hne
        show v ∈ (setUserActive db cu.id false).users
        unfold setUserActive
        have hv' : (if v.id == cu.id then { v with is_active := false } else v) = v := by
          simp [hne]
        exact hv' ▸ List.mem_map_of_mem _ hv
    · intro hbad
      unfold delete_own_account
      rw [hcu]
      dsimp only
      rw [if_neg (by simp [hbad])]

/-- C10 witness: correct and wrong password against a one-user store. -/
theorem C10_delete_own_account_password_gate_witness :
    ((check_password_hash "pbkdf2:secret1" "secret1" = true →
      (delete_own_account ⟨[⟨1, "alice", "a@x.com", "pbkdf2:secret1", 0, false, true⟩],
          [], [], []⟩ (some 1) "secret1").session = none ∧
      (delete_own_account ⟨[⟨1, "alice", "a@x.com", "pbkdf2:secret1", 0, false, true⟩],
          [], [], []⟩ (some 1) "secret1").flashes = ["Ваш аккаунт успешно удален"] ∧
      (delete_own_account ⟨[⟨1, "alice", "a@x.com", "pbkdf2:secret1", 0, false, true⟩],
          [], [], []⟩ (some 1) "secret1").page = .redirectIndex ∧
      getUser (delete_own_account ⟨[⟨1, "alice", "a@x.com", "pbkdf2:secret1", 0, false, true⟩],
          [], [], []⟩ (some 1) "secret1").db 1 =
        some ⟨1, "alice", "a@x.com", "pbkdf2:secret1", 0, false, false⟩ ∧
      (∀ v ∈ ([⟨1, "alice", "a@x.com", "pbkdf2:secret1", 0, false, true⟩] : List User),
        v.id ≠ 1 →
        v ∈ (delete_own_account ⟨[⟨1, "alice", "a@x.com", "pbkdf2:secret1", 0, false, true⟩],
          [], [], []⟩ (some 1) "secret1").db.users) ∧
      (delete_own_account ⟨[⟨1, "alice", "a@x.com", "pbkdf2:secret1", 0, false, true⟩],
          [], [], []⟩ (some 1) "secret1").db.topics = ([] : List Topic)) ∧
    (check_password_hash "pbkdf2:secret1" "secret1" = false →
      delete_own_account ⟨[⟨1, "alice", "a@x.com", "pbkdf2:secret1", 0, false, true⟩],
          [], [], []⟩ (some 1) "secret1" =
        ⟨⟨[⟨1, "alice", "a@x.com", "pbkdf2:secret1", 0, false, true⟩], [], [], []⟩,
          some 1, ["Неверный пароль"], .render "delete_account.html"⟩)) ∧
    delete_own_account ⟨[⟨1, "alice", "a@x.com", "pbkdf2:secret1", 0, false, true⟩],
        [], [], []⟩ (some 1) "wrong" =
      ⟨⟨[⟨1, "alice", "a@x.com", "pbkdf2:secret1", 0, false, true⟩], [], [], []⟩,
        some 1, ["Неверный пароль"], .render "delete_account.html"⟩ :=
  ⟨C10_delete_own_account_password_gate _ (some 1)
      ⟨1, "alice", "a@x.com", "pbkdf2:secret1", 0, false, true⟩ "secret1" (by decide),
    (C10_delete_own_account_password_gate _ (some 1)
      ⟨1, "alice", "a@x.com", "pbkdf2:secret1", 0, false, true⟩ "wrong" (by decide)).2
      (by decide)⟩

/-- C8: admin-delete-user refuses a self target and refuses an admin
target, flashing an error and changing nothing; only for a non-admin,
non-self target does it set the target's `is_active` to false (leaving
every other user row and the topic table intact). -/
theorem C8_admin_delete_user_guards (db : DB) (session : Option Nat) (cu u : User)
    (uid : Nat) (hcu : currentUser db session = some cu)
    (hadmin : cu.is_admin = true) (hu : getUser db uid = some u) :
    (u.id = cu.id →
      admin_delete_user db session uid =
        ⟨db, session, ["Нельзя удалить свой собственный аккаунт"], .redirectAdminUsers⟩) ∧
    (u.id ≠ cu.id → u.is_admin = true →
      admin_delete_user db session uid =
        ⟨db, session, ["Нельзя удалить другого администратора"], .redirectAdminUsers⟩) ∧
    (u.id ≠ cu.id → u.is_admin = false →
      (admin_delete_user db session uid).session = session ∧
      (admin_delete_user db session uid).page = .redirectAdminUsers ∧
      (admin_delete_user db session uid).flashes =
        ["Аккаунт пользователя " ++ u.username ++ " удален"] ∧
      getUser (admin_delete_user db session uid).db u.id =
        some { u with is_active := false } ∧
      (∀ v ∈ db.users, v.id ≠ u.id → v ∈ (admin_delete_user db session uid).db.users) ∧
      (admin_delete_user db session uid).db.topics = db.topics) := by
  have hid : u.id = uid := by simpa using List.find?_some hu
  subst hid
  refine ⟨?_, ?_, ?_⟩
  · intro hself
    unfold admin_delete_user
    rw [hcu]
    dsimp only
    rw [if_neg (by simp [hadmin]), hu]
    dsimp only
    rw [if_pos (by simpa using hself)]
  · intro hne htgt
    unfold admin_delete_user
    rw [hcu]
    dsimp only
    rw [if_neg (by simp [hadmin]), hu]
    dsimp only
    rw [if_neg (by simpa using hne), if_pos htgt]
  · intro hne htgt
    unfold admin_delete_user
    rw [hcu]
    dsimp only
    rw [if_neg (by simp [hadmin]), hu]
    dsimp only
    rw [if_neg (by simpa using hne), if_neg (by simp [htgt])]
    refine ⟨rfl, rfl, rfl, ?_, ?_, rfl⟩
    · show getUser (setUserActive db u.id false) u.id = some { u with is_active := false }
      unfold setUserActive
      rw [getUser_map db _ (fun x => by split <;> rfl) u.id, hu]
      simp
    · intro v hv hvne
      show v ∈ (setUserActive db u.id false).users
      unfold setUserActive
      have hv' : (if v.id == u.id then { v with is_active := false } else v) = v := by
        simp [hvne]
      exact hv' ▸ List.mem_map_of_mem _ hv

/-- C8 witness: an admin targeting themself, another admin, and a regular
user, over a three-user store. -/
theorem C8_admin_delete_user_guards_witness :
    admin_delete_user ⟨[⟨1, "root", "r@x.com", "pbkdf2:a", 0, true, true⟩,
        ⟨2, "boss", "b@x.com", "pbkdf2:b", 0, true, true⟩,
        ⟨3, "carl", "c@x.com", "pbkdf2:c", 0, false, true⟩], [], [], []⟩ (some 1) 1 =
      ⟨⟨[⟨1, "root", "r@x.com", "pbkdf2:a", 0, true, true⟩,
        ⟨2, "boss", "b@x.com", "pbkdf2:b", 0, true, true⟩,
        ⟨3, "carl", "c@x.com", "pbkdf2:c", 0, false, true⟩], [], [], []⟩,
        some 1, ["Нельзя удалить свой собственный аккаунт"], .redirectAdminUsers⟩ ∧
    admin_delete_user ⟨[⟨1, "root", "r@x.com", "pbkdf2:a", 0, true, true⟩,
        ⟨2, "boss", "b@x.com", "pbkdf2:b", 0, true, true⟩,
        ⟨3, "carl", "c@x.com", "pbkdf2:c", 0, false, true⟩], [], [], []⟩ (some 1) 2 =
      ⟨⟨[⟨1, "root", "r@x.com", "pbkdf2:a", 0, true, true⟩,
        ⟨2, "boss", "b@x.com", "pbkdf2:b", 0, true, true⟩,
        ⟨3, "carl", "c@x.com", "pbkdf2:c", 0, false, true⟩], [], [], []⟩,
        some 1, ["Нельзя удалить другого администратора"], .redirectAdminUsers⟩ ∧
    getUser (admin_delete_user ⟨[⟨1, "root", "r@x.com", "pbkdf2:a", 0, true, true⟩,
        ⟨2, "boss", "b@x.com", "pbkdf2:b", 0, true, true⟩,
        ⟨3, "carl", "c@x.com", "pbkdf2:c", 0, false, true⟩], [], [], []⟩ (some 1) 3).db 3 =
      some ⟨3, "carl", "c@x.com", "pbkdf2:c", 0, false, false⟩ :=
  ⟨(C8_admin_delete_user_guards _ (some 1)
      ⟨1, "root", "r@x.com", "pbkdf2:a", 0, true, true⟩
      ⟨1, "root", "r@x.com", "pbkdf2:a", 0, true, true⟩ 1
      (by decide) rfl (by decide)).1 rfl,
    (C8_admin_delete_user_guards _ (some 1)
      ⟨1, "root", "r@x.com", "pbkdf2:a", 0, true, true⟩
      ⟨2, "boss", "b@x.com", "pbkdf2:b", 0, true, true⟩ 2
      (by decide) rfl (by decide)).2.1 (by decide) rfl,
    ((C8_admin_delete_user_guards _ (some 1)
      ⟨1, "root", "r@x.com", "pbkdf2:a", 0, true, true⟩
      ⟨3, "carl", "c@x.com", "pbkdf2:c", 0, false, true⟩ 3
      (by decide) rfl (by decide)).2.2 (by decide) rfl).2.2.2.1⟩

/-- C3: each of the five registration error messages appears in the
collected error list exactly when its rule is violated — so an input
violating several rules gets every corresponding message at once — and
whenever the list is nonempty the registration fails: no row is created
(database unchanged), all collected messages are flashed, and the form
is re-rendered. -/
theorem C3_register_reports_all_violations (db : DB) (session : Option Nat)
    (un em pw cf : String) (now : Nat) (hs : currentUser db session = none) :
    ("Все поля обязательны для заполнения" ∈ registerErrors db un em pw cf ↔
      un = "" ∨ em = "" ∨ pw = "") ∧
    ("Пароли не совпадают" ∈ registerErrors db un em pw cf ↔ pw ≠ cf) ∧
    ("Пароль должен содержать не менее 6 символов" ∈ registerErrors db un em pw cf ↔
      pw.length < 6) ∧
    ("Имя пользователя уже занято" ∈ registerErrors db un em pw cf ↔
      ∃ v ∈ db.users, v.username = un) ∧
    ("Email уже зарегистрирован" ∈ registerErrors db un em pw cf ↔
      ∃ v ∈ db.users, v.email = em) ∧
    (registerErrors db un em pw cf ≠ [] →
      (register db session un em pw cf now).db = db ∧
      (register db session un em pw cf now).session = session ∧
      (register db session un em pw cf now).flashes = registerErrors db un em pw cf ∧
      (register db session un em pw cf now).page = .render "register.html") := by
  refine ⟨?_, ?_, ?_, ?_, ?_, ?_⟩
  · unfold registerErrors
    simp [mem_ite_singleton, List.find?_isSome]
  · unfold registerErrors
    simp [mem_ite_singleton, List.find?_isSome]
  · unfold registerErrors
    simp [mem_ite_singleton, List.find?_isSome]
  · unfold registerErrors
    simp [mem_ite_singleton, List.find?_isSome]
  · unfold registerErrors
    simp [mem_ite_singleton, List.find?_isSome]
  · intro hne
    unfold register
    rw [hs]
    dsimp only
    rw [if_neg hne]
    exact ⟨rfl, rfl, rfl, rfl⟩

/-- C3 witness: an input that violates three rules at once (all fields
empty, mismatched confirm, short password) against a one-user store. -/
theorem C3_register_reports_all_violations_witness :
    (("Все поля обязательны для заполнения" ∈
        registerErrors ⟨[⟨1, "bob", "b@x.com", "pbkdf2:s", 0, false, true⟩], [], [], []⟩
          "" "e@x.com" "abc" "abd" ↔
      ("" : String) = "" ∨ ("e@x.com" : String) = "" ∨ ("abc" : String) = "") ∧
    ("Пароли не совпадают" ∈
        registerErrors ⟨[⟨1, "bob", "b@x.com", "pbkdf2:s", 0, false, true⟩], [], [], []⟩
          "" "e@x.com" "abc" "abd" ↔ ("abc" : String) ≠ "abd") ∧
    ("Пароль должен содержать не менее 6 символов" ∈
        registerErrors ⟨[⟨1, "bob", "b@x.com", "pbkdf2:s", 0, false, true⟩], [], [], []⟩
          "" "e@x.com" "abc" "abd" ↔ ("abc" : String).length < 6) ∧
    ("Имя пользователя уже занято" ∈
        registerErrors ⟨[⟨1, "bob", "b@x.com", "pbkdf2:s", 0, false, true⟩], [], [], []⟩
          "" "e@x.com" "abc" "abd" ↔
      ∃ v ∈ ([⟨1, "bob", "b@x.com", "pbkdf2:s", 0, false, true⟩] : List User),
        v.username = "") ∧
    ("Email уже зарегистрирован" ∈
        registerErrors ⟨[⟨1, "bob", "b@x.com", "pbkdf2:s", 0, false, true⟩], [], [], []⟩
          "" "e@x.com" "abc" "abd" ↔
      ∃ v ∈ ([⟨1, "bob", "b@x.com", "pbkdf2:s", 0, false, true⟩] : List User),
        v.email = "e@x.com")) ∧
    (register ⟨[⟨1, "bob", "b@x.com", "pbkdf2:s", 0, false, true⟩], [], [], []⟩
        none "" "e@x.com" "abc" "abd" 3).db =
      ⟨[⟨1, "bob", "b@x.com", "pbkdf2:s", 0, false, true⟩], [], [], []⟩ ∧
    (register ⟨[⟨1, "bob", "b@x.com", "pbkdf2:s", 0, false, true⟩], [], [], []⟩
        none "" "e@x.com" "abc" "abd" 3).flashes =
      registerErrors ⟨[⟨1, "bob", "b@x.com", "pbkdf2:s", 0, false, true⟩], [], [], []⟩
        "" "e@x.com" "abc" "abd" := by
  have h := C3_register_reports_all_violations
    ⟨[⟨1, "bob", "b@x.com", "pbkdf2:s", 0, false, true⟩], [], [], []⟩
    none "" "e@x.com" "abc" "abd" 3 rfl
  have hfail := h.2.2.2.2.2 (by decide)
  exact ⟨⟨h.1, h.2.1, h.2.2.1, h.2.2.2.1, h.2.2.2.2.1⟩, hfail.1, hfail.2.2.1⟩

/-- C4: when a user with the requested username or email already exists,
a registration attempt fails with the corresponding uniqueness message,
creates no user row and changes nothing — the whole database, including
the existing user's row, is exactly as before. -/
theorem C4_register_duplicate_rejected (db : DB) (session : Option Nat) (u : User)
    (un em pw cf : String) (now : Nat)
    (hs : currentUser db session = none) (hu : u ∈ db.users)
    (hdup : u.username = un ∨ u.email = em) :
    (register db session un em pw cf now).db = db ∧
    (register db session un em pw cf now).session = session ∧
    (register db session un em pw cf now).page = .render "register.html" ∧
    (u.username = un →
      "Имя пользователя уже занято" ∈ (register db session un em pw cf now).flashes) ∧
    (u.email = em →
      "Email уже зарегистрирован" ∈ (register db session un em pw cf now).flashes) := by
  have hmemu : u.username = un →
      "Имя пользователя уже занято" ∈ registerErrors db un em pw cf := by
    intro h
    unfold registerErrors
    simp [mem_ite_singleton, List.find?_isSome]
    exact ⟨u, hu, h⟩
  have hmeme : u.email = em →
      "Email уже зарегистрирован" ∈ registerErrors db un em pw cf := by
    intro h
    unfold registerErrors
    simp [mem_ite_singleton, List.find?_isSome]
    exact ⟨u, hu, h⟩
  have hne : registerErrors db un em pw cf ≠ [] := by
    rcases hdup with h | h
    · exact List.ne_nil_of_mem (hmemu h)
    · exact List.ne_nil_of_mem (hmeme h)
  unfold register
  rw [hs]
  dsimp only
  rw [if_neg hne]
  exact ⟨rfl, rfl, rfl, hmemu, hmeme⟩

/-- C4 witness: re-registering the taken username "bob". -/
theorem C4_register_duplicate_rejected_witness :
    (register ⟨[⟨1, "bob", "b@x.com", "pbkdf2:s", 0, false, true⟩], [], [], []⟩
        none "bob" "new@x.com" "longpass" "longpass" 3).db =
      ⟨[⟨1, "bob", "b@x.com", "pbkdf2:s", 0, false, true⟩], [], [], []⟩ ∧
    (register ⟨[⟨1, "bob", "b@x.com", "pbkdf2:s", 0, false, true⟩], [], [], []⟩
        none "bob" "new@x.com" "longpass" "longpass" 3).session = none ∧
    (register ⟨[⟨1, "bob", "b@x.com", "pbkdf2:s", 0, false, true⟩], [], [], []⟩
        none "bob" "new@x.com" "longpass" "longpass" 3).page = .render "register.html" ∧
    (("bob" : String) = "bob" →
      "Имя пользователя уже занято" ∈
        (register ⟨[⟨1, "bob", "b@x.com", "pbkdf2:s", 0, false, true⟩], [], [], []⟩
          none "bob" "new@x.com" "longpass" "longpass" 3).flashes) ∧
    (("b@x.com" : String) = "new@x.com" →
      "Email уже зарегистрирован" ∈
        (register ⟨[⟨1, "bob", "b@x.com", "pbkdf2:s", 0, false, true⟩], [], [], []⟩
          none "bob" "new@x.com" "longpass" "longpass" 3).flashes) :=
  C4_register_duplicate_rejected _ none
    ⟨1, "bob", "b@x.com", "pbkdf2:s", 0, false, true⟩
    "bob" "new@x.com" "longpass" "longpass" 3 rfl (by decide) (Or.inl rfl)

/-- C7: admin soft-delete followed by admin restore is a round trip on
listing visibility: after `admin_delete_topic` the topic is absent from
the `/forum` listing yet still individually viewable by id (the view
renders), and after a subsequent `admin_restore_topic` a topic with that
id is in the `/forum` listing again, the owner being active. -/
theorem C7_soft_delete_restore_round_trip (db : DB) (session : Option Nat)
    (cu : User) (t : Topic) (owner : User)
    (hcu : currentUser db session = some cu) (hadmin : cu.is_admin = true)
    (ht : t ∈ db.topics)
    (howner : owner ∈ db.users) (hoid : owner.id = t.user_id)
    (hact : owner.is_active = true) :
    (∀ x ∈ topicsListing (admin_delete_topic db session t.id).db, x.id ≠ t.id) ∧
    (topic_view (admin_delete_topic db session t.id).db session t.id).page =
      .render "topic.html" ∧
    (∃ x ∈ topicsListing
        (admin_restore_topic (admin_delete_topic db session t.id).db session t.id).db,
      x.id = t.id) := by
  have hsome : (getTopic db t.id).isSome := List.find?_isSome.mpr ⟨t, ht, by simp⟩
  obtain ⟨t', ht'⟩ := Option.isSome_iff_exists.mp hsome
  have hdel : admin_delete_topic db session t.id =
      ⟨setTopicDeleted db t.id true, session, ["Тема успешно удалена"], .redirectTopics⟩ := by
    unfold admin_delete_topic
    rw [hcu]
    dsimp only
    rw [if_neg (by simp [hadmin]), ht']
  rw [hdel]
  have hg1 : getTopic (setTopicDeleted db t.id true) t.id =
      some (if t'.id == t.id then { t' with is_deleted := true } else t') := by
    unfold setTopicDeleted
    rw [getTopic_map db _ (fun x => by split <;> rfl) t.id, ht']
    rfl
  refine ⟨?_, ?_, ?_⟩
  · intro x hx
    rw [mem_topicsListing] at hx
    obtain ⟨hx1, hx2, -⟩ := hx
    unfold setTopicDeleted at hx1
    obtain ⟨y, hy, hfy⟩ := List.mem_map.mp hx1
    intro heq
    by_cases hyid : y.id = t.id
    · rw [if_pos (by simpa using hyid)] at hfy
      rw [← hfy] at hx2
      simp at hx2
    · rw [if_neg (by simpa using hyid)] at hfy
      rw [← hfy] at heq
      exact hyid heq
  · unfold topic_view
    rw [hg1]
  · have hcu1 : currentUser (setTopicDeleted db t.id true) session = some cu := hcu
    have hres : admin_restore_topic (setTopicDeleted db t.id true) session t.id =
        ⟨setTopicDeleted (setTopicDeleted db t.id true) t.id false, session,
          ["Тема восстановлена"], .redirectTopics⟩ := by
      unfold admin_restore_topic
      rw [hcu1]
      dsimp only
      rw [if_neg (by simp [hadmin]), hg1]
    rw [hres]
    refine ⟨{ t with is_deleted := false }, ?_, rfl⟩
    rw [mem_topicsListing]
    refine ⟨?_, rfl, owner, howner, by simpa using hoid, hact⟩
    show { t with is_deleted := false } ∈
      (setTopicDeleted (setTopicDeleted db t.id true) t.id false).topics
    unfold setTopicDeleted
    dsimp only
    have hgf : ((fun y : Topic => if y.id == t.id then { y with is_deleted := false } else y)
        ((fun y : Topic => if y.id == t.id then { y with is_deleted := true } else y) t)) =
        { t with is_deleted := false } := by simp
    exact hgf ▸ List.mem_map_of_mem _ (List.mem_map_of_mem _ ht)

/-- C7 witness: an admin soft-deletes and restores topic 7 owned by an
active regular user. -/
theorem C7_soft_delete_restore_round_trip_witness :
    (∀ x ∈ topicsListing (admin_delete_topic ⟨[⟨1, "root", "r@x.com", "pbkdf2:a", 0, true, true⟩,
        ⟨2, "olga", "o@x.com", "pbkdf2:b", 0, false, true⟩],
        [⟨7, "t", "c", 0, 2, 0, false⟩], [], []⟩ (some 1) 7).db, x.id ≠ 7) ∧
    (topic_view (admin_delete_topic ⟨[⟨1, "root", "r@x.com", "pbkdf2:a", 0, true, true⟩,
        ⟨2, "olga", "o@x.com", "pbkdf2:b", 0, false, true⟩],
        [⟨7, "t", "c", 0, 2, 0, false⟩], [], []⟩ (some 1) 7).db (some 1) 7).page =
      .render "topic.html" ∧
    (∃ x ∈ topicsListing
        (admin_restore_topic (admin_delete_topic ⟨[⟨1, "root", "r@x.com", "pbkdf2:a", 0, true, true⟩,
          ⟨2, "olga", "o@x.com", "pbkdf2:b", 0, false, true⟩],
          [⟨7, "t", "c", 0, 2, 0, false⟩], [], []⟩ (some 1) 7).db (some 1) 7).db,
      x.id = 7) :=
  C7_soft_delete_restore_round_trip
    ⟨[⟨1, "root", "r@x.com", "pbkdf2:a", 0, true, true⟩,
      ⟨2, "olga", "o@x.com", "pbkdf2:b", 0, false, true⟩],
      [⟨7, "t", "c", 0, 2, 0, false⟩], [], []⟩ (some 1)
    ⟨1, "root", "r@x.com", "pbkdf2:a", 0, true, true⟩
    ⟨7, "t", "c", 0, 2, 0, false⟩
    ⟨2, "olga", "o@x.com", "pbkdf2:b", 0, false, true⟩
    (by decide) rfl (by decide) (by decide) rfl rfl

end DashForum
